import Mathlib

/-!
Shallow embedding of the rate-limiting core of the repository
(`rate_limiter/rate_limiter.go`, `rate_limiter/config.go`,
`rate_limiter/storage/hashmap.go`, `rate_limiter/storage/redis.go`,
`rate_limiter/cleanup/worker.go` and the earlier revisions kept in the
repository), together with theorems settling the stated claims.

Go `uint16` counters are modelled as `Nat` with explicit `% 65536` where the
code can overflow; `time.Duration` is `Int` (nanoseconds); Go functions whose
execution can block forever (acquiring a held non-reentrant mutex) return
`Option` with `none` for the blocked execution; Go functions whose body may
call `log.Fatalf` (which terminates the process) return a `GoOutcome`.
-/

namespace GinTestfield

/-- Pointwise update of a Go `map[string]uint16` modelled as a total
function. Reading an absent key in Go returns the zero value `0`, and
`delete(m, id)` makes later reads return `0`, so removal is modelled as
setting the value to `0`; this is exactly what the code can observe through
`Get`. -/
def mapSet (m : String → Nat) (k : String) (v : Nat) : String → Nat :=
  fun q => if q = k then v else m q

/-- State of `rlstorage.hashMapStorage` (storage/hashmap.go:10-14): the
`storage` map together with the state of its non-reentrant `sync.Mutex`
(`locked = true` when held). The logger field has no observable effect on
the claims and is omitted. -/
structure hashMapStorage where
  storage : String → Nat
  locked : Bool

namespace hashMapStorage

/-- `sync.Mutex.Lock`: a Go mutex is not reentrant, so acquiring a mutex
already held by the running execution blocks forever; that blocked execution
is `none`. -/
def lockAcquire (h : hashMapStorage) : Option hashMapStorage :=
  if h.locked then none else some { h with locked := true }

/-- `Free` (storage/hashmap.go:30-35): lock the mutex, delete the id from
the map, unlock on return. -/
def Free (h : hashMapStorage) (id : String) : Option hashMapStorage :=
  (lockAcquire h).map fun g => { storage := mapSet g.storage id 0, locked := false }

/-- `Decrease` (storage/hashmap.go:18-27): lock the mutex, read the count;
if `count <= 1` call `h.Free(id)` — which itself starts by locking the same
mutex — otherwise store `count - 1`; the deferred unlock runs only when the
function returns. -/
def Decrease (h : hashMapStorage) (id : String) : Option hashMapStorage :=
  match lockAcquire h with
  | none => none
  | some g =>
    if g.storage id ≤ 1 then
      (Free g id).map fun g2 => { g2 with locked := false }
    else
      some { storage := mapSet g.storage id (g.storage id - 1), locked := false }

/-- `Get` (storage/hashmap.go:38-44): lock, read the count (0 if the id is
absent), unlock, return. -/
def Get (h : hashMapStorage) (id : String) : Option (Nat × hashMapStorage) :=
  (lockAcquire h).map fun g => (g.storage id, { g with locked := false })

/-- `Increase` (storage/hashmap.go:47-52): lock, increment the `uint16`
counter (wrapping modulo 2^16), unlock. -/
def Increase (h : hashMapStorage) (id : String) : Option hashMapStorage :=
  (lockAcquire h).map fun g =>
    { storage := mapSet g.storage id ((g.storage id + 1) % 65536), locked := false }

/-- `FreeAll` (storage/hashmap.go:64-69): lock, replace the map with a fresh
empty one, unlock. -/
def FreeAll (h : hashMapStorage) : Option hashMapStorage :=
  (lockAcquire h).map fun _ => { storage := fun _ => 0, locked := false }

end hashMapStorage

/-- A counter store with no entries and the mutex free. -/
def emptyStore : hashMapStorage := { storage := fun _ => 0, locked := false }

/-- C3: for every identifier whose current count is at most 1 (including an
absent identifier, whose count reads as 0), `hashMapStorage.Decrease` never
returns: it takes the non-reentrant mutex and then calls `Free`, which tries
to take the same mutex again, so the call self-deadlocks (`none`) instead of
removing the identifier. -/
theorem decrease_deadlocks_when_count_le_one
    (m : String → Nat) (id : String) (h : m id ≤ 1) :
    hashMapStorage.Decrease ⟨m, false⟩ id = none := by
  simp [hashMapStorage.Decrease, hashMapStorage.lockAcquire, hashMapStorage.Free, h]

/-- Witness for C3 at a concrete input: an id stored with count 1. -/
theorem decrease_deadlocks_when_count_le_one_witness :
    (fun _ => 1 : String → Nat) "x" ≤ 1 ∧
      hashMapStorage.Decrease ⟨fun _ => 1, false⟩ "x" = none :=
  ⟨by decide, decrease_deadlocks_when_count_le_one (fun _ => 1) "x" (by decide)⟩

/-- State visible to the admission path (rate_limiter.go): the counter store
(`cfg.storage`, the default in-memory backend built by `NewConfigBuilder`)
plus the identifiers sent on the release channel `cfg.queue` in order
(`rateEntry.userID`; the entry's `releaseTime` is wall-clock data with no
effect on the counting claims). -/
structure RLState where
  store : hashMapStorage
  queue : List String

/-- `isBlocked` (rate_limiter.go:73-81): read the current count with `Get`;
if it is `>= cfg.limit` return `true` (deny) without touching the store or
the queue; otherwise `Increase` the count, enqueue a release entry
(`addToReleaseQueue`, config.go:30-37), and return `false` (admit). `none`
is the execution blocked inside the storage layer (never hit from an
unlocked store). -/
def isBlocked (limit : Nat) (s : RLState) (id : String) : Option (Bool × RLState) :=
  match hashMapStorage.Get s.store id with
  | none => none
  | some (currentState, st) =>
    if currentState ≥ limit then some (true, { s with store := st })
    else
      match hashMapStorage.Increase st id with
      | none => none
      | some st2 => some (false, { store := st2, queue := s.queue ++ [id] })

/-- The admission path as first invoked: empty store, empty queue. -/
def initialRLState : RLState := { store := emptyStore, queue := [] }

/-- The state after `n` successive `isBlocked` calls for `id`, starting from
the initial state, with no intervening releases. -/
def runCalls (limit : Nat) (id : String) : Nat → Option RLState
  | 0 => some initialRLState
  | n + 1 => (runCalls limit id n).bind fun s => (isBlocked limit s id).map Prod.snd

/-- The answer of the `(n+1)`-th `isBlocked` call in that sequence. -/
def nthCallAnswer (limit : Nat) (id : String) (n : Nat) : Option Bool :=
  (runCalls limit id n).bind fun s => (isBlocked limit s id).map Prod.fst

theorem isBlocked_denies (L : Nat) (m : String → Nat) (q : List String) (id : String)
    (hc : L ≤ m id) :
    isBlocked L ⟨⟨m, false⟩, q⟩ id = some (true, ⟨⟨m, false⟩, q⟩) := by
  simp [isBlocked, hashMapStorage.Get, hashMapStorage.lockAcquire, hc]

theorem isBlocked_admits (L : Nat) (hU : L < 65536) (m : String → Nat)
    (q : List String) (id : String) (hc : m id < L) :
    isBlocked L ⟨⟨m, false⟩, q⟩ id =
      some (false, ⟨⟨mapSet m id (m id + 1), false⟩, q ++ [id]⟩) := by
  have hmod : (m id + 1) % 65536 = m id + 1 := Nat.mod_eq_of_lt (by omega)
  simp [isBlocked, hashMapStorage.Get, hashMapStorage.Increase,
    hashMapStorage.lockAcquire, hmod, Nat.not_le.mpr hc]

theorem runCalls_spec (L : Nat) (hU : L < 65536) (id : String) :
    ∀ n, n ≤ L → ∃ m q, runCalls L id n = some ⟨⟨m, false⟩, q⟩ ∧ m id = n := by
  intro n
  induction n with
  | zero => exact fun _ => ⟨fun _ => 0, [], rfl, rfl⟩
  | succ k ih =>
    intro hk
    obtain ⟨m, q, hrun, hcount⟩ := ih (by omega)
    refine ⟨mapSet m id (m id + 1), q ++ [id], ?_, ?_⟩
    · simp [runCalls, hrun, isBlocked_admits L hU m q id (by omega)]
    · simp [mapSet, hcount]

/-- C1: for every identifier and every limit `0 < L` (`L < 65536` since the
limit is a Go `uint16`), in a sequence of `isBlocked` calls for that
identifier with no intervening releases: a call made while the stored count
is strictly below `L` is admitted (`false`, incrementing the count and
enqueuing one release entry), a call made while the stored count is at least
`L` is denied (`true`); hence starting from the empty store the first `L`
calls are admitted and the `(L+1)`-th is denied. -/
theorem admission_first_L_admitted_next_denied
    (L : Nat) (hL : 0 < L) (hU : L < 65536) (id : String) :
    (∀ (m : String → Nat) (q : List String), m id < L →
        isBlocked L ⟨⟨m, false⟩, q⟩ id =
          some (false, ⟨⟨mapSet m id (m id + 1), false⟩, q ++ [id]⟩)) ∧
    (∀ (m : String → Nat) (q : List String), L ≤ m id →
        isBlocked L ⟨⟨m, false⟩, q⟩ id = some (true, ⟨⟨m, false⟩, q⟩)) ∧
    (∀ n, n < L → nthCallAnswer L id n = some false) ∧
    nthCallAnswer L id L = some true := by
  refine ⟨fun m q hc => isBlocked_admits L hU m q id hc,
          fun m q hc => isBlocked_denies L m q id hc, ?_, ?_⟩
  · intro n hn
    obtain ⟨m, q, hrun, hcount⟩ := runCalls_spec L hU id n (by omega)
    simp [nthCallAnswer, hrun, isBlocked_admits L hU m q id (by omega)]
  · obtain ⟨m, q, hrun, hcount⟩ := runCalls_spec L hU id L le_rfl
    simp [nthCallAnswer, hrun, isBlocked_denies L m q id (by omega)]

/-- Witness for C1 at `L = 2`, `id = "x"`. -/
theorem admission_first_L_admitted_next_denied_witness :
    0 < 2 ∧ 2 < 65536 ∧
    ((∀ (m : String → Nat) (q : List String), m "x" < 2 →
        isBlocked 2 ⟨⟨m, false⟩, q⟩ "x" =
          some (false, ⟨⟨mapSet m "x" (m "x" + 1), false⟩, q ++ ["x"]⟩)) ∧
     (∀ (m : String → Nat) (q : List String), 2 ≤ m "x" →
        isBlocked 2 ⟨⟨m, false⟩, q⟩ "x" = some (true, ⟨⟨m, false⟩, q⟩)) ∧
     (∀ n, n < 2 → nthCallAnswer 2 "x" n = some false) ∧
     nthCallAnswer 2 "x" 2 = some true) :=
  ⟨by decide, by decide,
    admission_first_L_admitted_next_denied 2 (by decide) (by decide) "x"⟩

/-- C8: for every identifier whose current count is at least the limit, the
denied `isBlocked` call returns with the whole state unchanged — the count of
every identifier is as before and nothing was appended to the release
queue. -/
theorem denied_call_mutates_nothing
    (L : Nat) (m : String → Nat) (q : List String) (id : String)
    (hc : L ≤ m id) :
    isBlocked L ⟨⟨m, false⟩, q⟩ id = some (true, ⟨⟨m, false⟩, q⟩) :=
  isBlocked_denies L m q id hc

/-- Witness for C8 at a concrete over-limit state. -/
theorem denied_call_mutates_nothing_witness :
    3 ≤ mapSet (fun _ => 0) "x" 5 "x" ∧
      isBlocked 3 ⟨⟨mapSet (fun _ => 0) "x" 5, false⟩, ["x"]⟩ "x" =
        some (true, ⟨⟨mapSet (fun _ => 0) "x" 5, false⟩, ["x"]⟩) :=
  ⟨by decide,
    denied_call_mutates_nothing 3 (mapSet (fun _ => 0) "x" 5) ["x"] "x" (by decide)⟩

/-- C9: evaluation of `hashMapStorage.Decrease` at the inputs where the spec
says it must remove the identifier (count 1) or be a completing no-op
(absent id): in both cases the call self-deadlocks (`none`) instead of
returning, contradicting the claimed behavior. -/
theorem decrease_at_low_count_does_not_return :
    hashMapStorage.Decrease ⟨mapSet (fun _ => 0) "x" 1, false⟩ "x" = none ∧
      hashMapStorage.Decrease ⟨fun _ => 0, false⟩ "y" = none := by
  constructor <;> rfl

/-- Go `time.Duration`: a signed 64-bit count of nanoseconds. -/
abbrev Duration := Int

def second : Duration := 1000000000

def minute : Duration := 60 * second

def hour : Duration := 60 * minute

/-- `CleanupWorker` (cleanup/worker.go:9-13): what its `run` loop observes is
the ticker period `rotation`; the storage reference and stop channel carry no
counting information for the claims. -/
structure CleanupWorker where
  rotation : Duration
  deriving DecidableEq

/-- `NewWorker` (cleanup/worker.go:15-21) keyed by the rotation argument. -/
def NewWorker (rotation : Duration) : CleanupWorker :=
  { rotation := rotation }

/-- One tick of `run` (cleanup/worker.go:32-44): every `rotation` interval
the ticker fires and the worker calls `storage.FreeAll()`. -/
def CleanupWorker.tick (_ : CleanupWorker) (st : hashMapStorage) :
    Option hashMapStorage :=
  hashMapStorage.FreeAll st

/-- `Config` (config.go:15-28): the fields read by `Build`. The
function-valued fields (`idSelector`, `handler`) and the storage interface
value are modelled by whether they are nil, which is all `Build` inspects. -/
structure Config where
  limit : Nat
  workerCount : Nat
  timeout : Duration
  tolerance : Duration
  fullCleanupRotation : Duration
  idSelectorNil : Bool
  handlerNil : Bool
  storageNil : Bool

/-- `NewConfigBuilder` (config.go:51-65) default values. -/
def NewConfigBuilder : Config :=
  { limit := 60
    workerCount := 20
    tolerance := 2 * second
    timeout := minute
    fullCleanupRotation := 24 * hour
    idSelectorNil := false
    handlerNil := false
    storageNil := false }

/-- `DisableFullCleanup` (config.go:255-258): sets the rotation to 0, the
documented "disabled" value. -/
def DisableFullCleanup (cfg : Config) : Config :=
  { cfg with fullCleanupRotation := 0 }

/-- `FullCleanupRotation` (config.go:244-247). -/
def FullCleanupRotation (cfg : Config) (rotation : Duration) : Config :=
  { cfg with fullCleanupRotation := rotation }

/-- Result of `Config.Build` (config.go:282-322): `err msg` is the
`(nil handler, non-nil error)` return; `ok cw` is a non-nil handler with a
nil error, where `cw` is the cleanup worker started in the default branch
(`none` when no worker is started). -/
inductive BuildResult where
  | err (msg : String)
  | ok (cleanupStarted : Option CleanupWorker)
  deriving DecidableEq

/-- `Config.Build` (config.go:282-322), validation cases in source order.
In the default branch the cleanup worker is started when
`fullCleanupRotation > 0`, and it is constructed as
`cleanup.NewWorker(cfg.storage, cfg.timeout)` (config.go:315-317) — the
rotation passed to `NewWorker` is `cfg.timeout`. -/
def Config.Build (cfg : Config) : BuildResult :=
  if cfg.tolerance ≥ cfg.timeout then
    .err "tolerance value cannot be greater than or equal to timeout"
  else if cfg.idSelectorNil then .err "`IdSelector` value cannot be nil"
  else if cfg.handlerNil then .err "`Handler` value cannot be nil"
  else if cfg.storageNil then .err "`Storage` value cannot be nil"
  else if cfg.limit = 0 then .err "`Limit` value cannot be 0"
  else if cfg.timeout ≤ second then .err "`Timeout` cannot be less than a time.Second"
  else if cfg.tolerance < 0 then .err "`Tolerance` value cannot be less than zero"
  else if cfg.timeout < cfg.tolerance then .err "`Tolerance` value cannot be less than `Timeout`"
  else if cfg.workerCount = 0 then .err "`WorkerCount` cannot be 0"
  else if cfg.fullCleanupRotation ≤ cfg.timeout then
    .err "`FullCleanupRotation` cannot be less than `Timeout`"
  else
    .ok (if cfg.fullCleanupRotation > 0 then some (NewWorker cfg.timeout) else none)

/-- A configuration that passes every validation of `Build`: timeout 2s,
tolerance 0, default rotation 24h. -/
def cfgShortTimeout : Config :=
  { NewConfigBuilder with timeout := 2 * second, tolerance := 0 }

/-- C2: evaluation of `Config.Build` at a valid configuration with
`timeout = 2s` and `fullCleanupRotation = 24h`: the build succeeds but the
cleanup worker it starts ticks with rotation `2s` — the `timeout` field, not
the configured `fullCleanupRotation`, which differs. -/
theorem cleanup_worker_period_is_timeout_not_rotation :
    cfgShortTimeout.Build = BuildResult.ok (some (NewWorker (2 * second))) ∧
      cfgShortTimeout.fullCleanupRotation = 24 * hour ∧
      (2 * second : Duration) ≠ 24 * hour := by
  refine ⟨by decide, by decide, by decide⟩

/-- C4: evaluation of `Config.Build` on the default configuration after
`DisableFullCleanup` (rotation 0, everything else valid): the
`fullCleanupRotation <= timeout` validation fires, so `Build` returns a nil
handler and a non-nil error instead of building successfully. -/
theorem build_rejects_disabled_cleanup_rotation :
    (DisableFullCleanup NewConfigBuilder).Build =
      BuildResult.err "`FullCleanupRotation` cannot be less than `Timeout`" := by
  decide

/-- `Config` of the earlier revision (src/unnamed/part_003:13-23), the fields
read by its `Build`. -/
structure ConfigV1 where
  limit : Nat
  workerCount : Nat
  timeout : Duration
  tolerance : Duration
  idSelectorNil : Bool
  handlerNil : Bool
  storageNil : Bool

/-- The named return values `(h gin.HandlerFunc, e error)` of the legacy
`Build`: whether `h` was assigned (non-nil) and the error `e` (`none` =
nil). -/
structure BuildOut where
  handlerNonNil : Bool
  err : Option String
  deriving DecidableEq

/-- Legacy `Build` (src/unnamed/part_003:100-126, the same code as the first
revision kept in config.go): when `tolerance > timeout` it executes a bare
`return`, leaving both named return values at their zero values — nil
handler and nil error; when `tolerance = timeout` that guard does not fire
and (with the remaining validations passing) a handler is built. -/
def ConfigV1.Build (cfg : ConfigV1) : BuildOut :=
  if cfg.tolerance > cfg.timeout then { handlerNonNil := false, err := none }
  else if cfg.idSelectorNil then { handlerNonNil := false, err := some "`IdSelector` value cannot be nil" }
  else if cfg.handlerNil then { handlerNonNil := false, err := some "`Handler` value cannot be nil" }
  else if cfg.storageNil then { handlerNonNil := false, err := some "`Storage` value cannot be nil" }
  else if cfg.limit = 0 then { handlerNonNil := false, err := some "`Limit` value cannot be 0" }
  else if cfg.timeout ≤ second then { handlerNonNil := false, err := some "`Timeout` cannot be less than a time.Second" }
  else if cfg.tolerance < 0 then { handlerNonNil := false, err := some "`Tolerance` value cannot be less than zero" }
  else if cfg.workerCount = 0 then { handlerNonNil := false, err := some "`WorkerCount` cannot be 0" }
  else if cfg.tolerance > cfg.timeout then { handlerNonNil := false, err := some "tolerance value cannot be less than timeout" }
  else { handlerNonNil := true, err := none }

/-- Legacy configuration with `tolerance = 2 min > timeout = 1 min`, all
other options valid. -/
def cfgV1HighTolerance : ConfigV1 :=
  { limit := 60, workerCount := 20, timeout := minute, tolerance := 2 * minute
    idSelectorNil := false, handlerNil := false, storageNil := false }

/-- Legacy configuration with `tolerance = timeout = 1 min`, all other
options valid. -/
def cfgV1EqualTolerance : ConfigV1 :=
  { cfgV1HighTolerance with tolerance := minute }

/-- C7: evaluation of the repository's `Build` functions at configurations
with `tolerance >= timeout`: the legacy `Build` (part_003:100-126) returns a
nil handler together with a nil error when `tolerance > timeout`, and builds
a usable handler when `tolerance = timeout` — both contradicting the claim —
while the converged `Build` (config.go:282-288) does return a nil handler
with a non-nil error. -/
theorem legacy_build_returns_nil_handler_nil_error :
    cfgV1HighTolerance.Build = { handlerNonNil := false, err := none } ∧
      cfgV1EqualTolerance.Build = { handlerNonNil := true, err := none } ∧
      ({ NewConfigBuilder with tolerance := minute } : Config).Build =
        BuildResult.err "tolerance value cannot be greater than or equal to timeout" := by
  refine ⟨by decide, by decide, by decide⟩

/-- State of the Redis database as used by `rlRedisStorage`: integer-valued
keys (`INCR`/`DECR` store and read integers; an absent key is `none`). -/
structure RedisDB where
  data : String → Option Int

/-- Redis `DECR`: an absent key is treated as 0, so `DECR` on an absent key
stores `-1`; an existing value is decremented, going below zero freely. -/
def redisDecr (db : RedisDB) (id : String) : RedisDB :=
  { data := fun k => if k = id then some ((db.data id).getD 0 - 1) else db.data k }

/-- Redis `INCR`: an absent key is treated as 0 and becomes 1. -/
def redisIncr (db : RedisDB) (id : String) : RedisDB :=
  { data := fun k => if k = id then some ((db.data id).getD 0 + 1) else db.data k }

/-- The Go conversion `uint16(n)` for `n : int`: the low 16 bits, i.e.
`n mod 2^16` (so `uint16(-1) = 65535`). -/
def goUInt16 (n : Int) : Nat := (n % 65536).toNat

/-- Result of running a Go function whose body may call `log.Fatalf`:
`fatalExit` prints the message and terminates the whole process via
`os.Exit(1)` — the function does not return to its caller. -/
inductive GoOutcome (α : Type) where
  | returns (val : α)
  | fatalExit
  deriving DecidableEq

/-- A Redis database with no keys. -/
def emptyDB : RedisDB := { data := fun _ => none }

namespace rlRedisStorage

/-- `Decrease` (storage/redis.go:29-34): issue `DECR id`; if the client call
reports an error (`decrErr`, e.g. server unreachable) call `log.Fatalf`,
which terminates the process; otherwise return with the key decremented
(below zero when the count was 0 or the key absent). -/
def Decrease (db : RedisDB) (decrErr : Bool) (id : String) : GoOutcome RedisDB :=
  if decrErr then .fatalExit else .returns (redisDecr db id)

/-- `Increase` (storage/redis.go:63-71): issue `INCR id`, calling
`log.Fatalf` on error; then issue `EXPIRE`, whose failure is only logged
with `log.Printf` and changes nothing observable here. -/
def Increase (db : RedisDB) (incrErr expireErr : Bool) (id : String) :
    GoOutcome RedisDB :=
  if incrErr then .fatalExit else .returns (redisIncr db id)

/-- `Free` (storage/redis.go:38-43): `SET id 0`, calling `log.Fatalf` on
error. -/
def Free (db : RedisDB) (setErr : Bool) (id : String) : GoOutcome RedisDB :=
  if setErr then .fatalExit
  else .returns { data := fun k => if k = id then some 0 else db.data k }

/-- `Get` (storage/redis.go:48-58): read `client.Get(id).Val()`; a failed or
absent read yields the empty string and the function returns 0; otherwise
`strconv.Atoi` parses the stored integer (always succeeding on the
integer-valued states reachable here) and the function returns
`uint16(result)`. -/
def Get (db : RedisDB) (getFailed : Bool) (id : String) : GoOutcome Nat :=
  if getFailed then .returns 0
  else
    match db.data id with
    | none => .returns 0
    | some v => .returns (goUInt16 v)

end rlRedisStorage

/-- C5: evaluation of the Redis backend at an identifier with count 0 (the
key is absent): `Decrease` runs `DECR`, storing `-1`, and a subsequent `Get`
returns `uint16(-1) = 65535` — a huge wrapped value, violating the
invariant that the observable count stays a non-negative small count (0). -/
theorem redis_decrease_at_zero_wraps_get_to_65535 :
    rlRedisStorage.Decrease emptyDB false "x" =
        GoOutcome.returns (redisDecr emptyDB "x") ∧
      (redisDecr emptyDB "x").data "x" = some (-1) ∧
      rlRedisStorage.Get (redisDecr emptyDB "x") false "x" =
        GoOutcome.returns 65535 := by
  refine ⟨rfl, by simp [redisDecr, emptyDB], rfl⟩

/-- C6: evaluation of the Redis backend when a storage operation fails at
runtime (`Decr`/`Incr`/`Set` returning an error, e.g. the server is
unreachable): `Decrease`, `Increase` and `Free` all call `log.Fatalf`,
terminating the process instead of logging and returning to the admitting
path. -/
theorem redis_storage_errors_terminate_process :
    rlRedisStorage.Decrease emptyDB true "x" = GoOutcome.fatalExit ∧
      rlRedisStorage.Increase emptyDB true false "x" = GoOutcome.fatalExit ∧
      rlRedisStorage.Free emptyDB true "x" = GoOutcome.fatalExit := by
  refine ⟨rfl, rfl, rfl⟩

/-- Program counter of one in-flight `isBlocked` call. The call performs two
separate atomic storage operations — `Get` under the store's lock, then
(when the value read was below the limit) `Increase` under the lock together
with the enqueue — and between them other calls for the same identifier may
run. `done admitted` records the call's answer, with `admitted = true`
exactly when `isBlocked` returns `false`. -/
inductive CallPC where
  | start
  | afterRead (v : Nat)
  | done (admitted : Bool)
  deriving DecidableEq

/-- One atomic step of a single in-flight call, following the body of
`isBlocked` (rate_limiter.go:73-81); the comparison with the limit is
thread-local, applied to the value the call read earlier. -/
def callStep (limit : Nat) (id : String) :
    CallPC → RLState → Option (CallPC × RLState)
  | .start, s =>
      (hashMapStorage.Get s.store id).map fun p => (.afterRead p.1, { s with store := p.2 })
  | .afterRead v, s =>
      if v ≥ limit then some (.done false, s)
      else (hashMapStorage.Increase s.store id).map
        fun st => (.done true, ⟨st, s.queue ++ [id]⟩)
  | .done b, s => some (.done b, s)

/-- Run one step of the call at index `i` of the thread list. -/
def schedStep (limit : Nat) (id : String) (i : Nat) (ts : List CallPC)
    (s : RLState) : Option (List CallPC × RLState) :=
  match ts[i]? with
  | none => none
  | some pc => (callStep limit id pc s).map fun p => (ts.set i p.1, p.2)

/-- Execute a schedule: at each position, the listed call takes its next
atomic step. Every schedule is a legal interleaving of the concurrent
`isBlocked` calls, since each storage operation takes and releases the lock
on its own. -/
def execSched (limit : Nat) (id : String) :
    List Nat → List CallPC → RLState → Option (List CallPC × RLState)
  | [], ts, s => some (ts, s)
  | i :: rest, ts, s =>
      (schedStep limit id i ts s).bind fun p => execSched limit id rest p.1 p.2

/-- A single call run to completion under this semantics is exactly
`isBlocked` (with the admitted flag the negation of the blocked answer). -/
theorem execSched_single_matches_isBlocked (L : Nat) (s : RLState) (id : String) :
    execSched L id [0, 0] [CallPC.start] s =
      (isBlocked L s id).map fun p => ([CallPC.done (!p.1)], p.2) := by
  rcases hget : hashMapStorage.Get s.store id with _ | ⟨v, st⟩
  · simp [execSched, schedStep, callStep, isBlocked, hget]
  · by_cases hv : v ≥ L
    · simp [execSched, schedStep, callStep, isBlocked, hget, hv]
    · rcases hinc : hashMapStorage.Increase st id with _ | st2 <;>
        simp [execSched, schedStep, callStep, isBlocked, hget, hv, hinc]

/-- C10: evaluation of the interleaved semantics of `isBlocked` with
`limit = 1` and three concurrent calls for the same identifier on an empty
store, under the schedule where all three `Get`s run before any `Increase`:
every call reads count 0, so all three are admitted and the final count is
3 — two beyond the limit, with no atomic check-and-increment and no
documented margin bounding the overshoot (with `n` concurrent calls it
reaches `n - 1`). -/
theorem concurrent_admissions_all_succeed_beyond_limit :
    (execSched 1 "x" [0, 1, 2, 0, 1, 2]
        [CallPC.start, CallPC.start, CallPC.start] initialRLState).map
        (fun p => (p.1, p.2.store.storage "x", p.2.store.locked)) =
      some ([CallPC.done true, CallPC.done true, CallPC.done true], 3, false) := by
  rfl

end GinTestfield
